import Mathlib

/-!
Verification development for the link-checker repository.

The development shallowly embeds the `validator` package (worker pool,
`checkHTTP`, `checkFile`) and the aggregation / link-filtering logic of the
`cli` package.  External effects (the HTTP client's HEAD/GET attempts, the
filesystem `os.Stat`, and `filepath.Join`) are modelled as oracle functions
collected in an `Env` record: the embedded code is a faithful translation of
the Go control flow over those oracles.  The concurrency of
`ValidateLinksAsync` is modelled as a relation over schedules: a schedule
assigns the (closed, fully drained) job channel's contents to the spawned
workers, and the collected result list is an arbitrary interleaving
(permutation) of the workers' output streams.
-/

namespace LinkChecker

/-- Go `strings.HasPrefix s p`, computed on the character lists. -/
def strStarts (s p : String) : Bool :=
  List.isPrefixOf p.data s.data

/-- Helper for `strContains`: does `sub` occur inside the character list? -/
def listHasSub (sub : List Char) : List Char → Bool
  | [] => sub.isEmpty
  | c :: rest => List.isPrefixOf sub (c :: rest) || listHasSub sub rest

/-- Go `strings.Contains s sub`, computed on the character lists. -/
def strContains (s sub : String) : Bool :=
  listHasSub sub.data s.data

/-- An HTTP response as the checker sees it: `resp.StatusCode` and the status
line `resp.Status` (e.g. "404 Not Found"). -/
structure HTTPResponse where
  statusCode : Nat
  status : String
deriving DecidableEq

/-- `validator.LinkStatus` (src/unnamed/part_003, lines 12-17). -/
structure LinkStatus where
  Link : String
  Valid : Bool
  Reason : String
  StatusCode : Nat
deriving DecidableEq

/-- Oracle for the external world: outcome of an HTTP HEAD attempt and of the
fallback GET attempt per URL (a transport error text, or a response), the
filesystem `os.Stat` per path (an OS error text, or success), and
`filepath.Join`.  These model the Go standard library collaborators of the
validator; all control flow over them is translated from the source. -/
structure Env where
  head : String → Except String HTTPResponse
  get : String → Except String HTTPResponse
  stat : String → Except String Unit
  join : String → String → String

/-- The response-classification tail of `checkHTTP`
(src/unnamed/part_003, lines 123-128): 2xx/3xx valid, otherwise the status
line is the reason. -/
def classifyResp (resp : HTTPResponse) : Bool × String × Nat :=
  if 200 ≤ resp.statusCode ∧ resp.statusCode < 400 then (true, "", resp.statusCode)
  else (false, resp.status, resp.statusCode)

/-- `validator.checkHTTP` (src/unnamed/part_003, lines 97-129), given the
outcomes of the HEAD attempt and of the fallback GET attempt.  The fallback
GET is consulted only when the HEAD attempt returns a (transport) error;
when both attempts error, the GET's error text is inspected for "timeout". -/
def checkHTTPCore (headAttempt getAttempt : Except String HTTPResponse) :
    Bool × String × Nat :=
  match headAttempt with
  | Except.ok resp => classifyResp resp
  | Except.error _ =>
    match getAttempt with
    | Except.ok resp => classifyResp resp
    | Except.error e =>
      if strContains e "timeout" then (false, "Request timeout", 0)
      else (false, e, 0)

/-- Unix `filepath.IsAbs`: the path starts with a slash. -/
def isAbsPath (p : String) : Bool :=
  strStarts p "/"

/-- `validator.checkFile` (src/unnamed/part_003, lines 131-145): resolve the
link against `basePath` unless absolute, then stat the resolved path. -/
def checkFile (env : Env) (basePath relPath : String) : Bool × String :=
  let fullPath := if isAbsPath relPath then relPath else env.join basePath relPath
  match env.stat fullPath with
  | Except.ok _ => (true, "")
  | Except.error e => (false, e)

/-- The classification test of `validator.worker`
(src/unnamed/part_003, line 75): HTTP(S) scheme by literal case-sensitive
string prefix. -/
def isHTTPLink (link : String) : Bool :=
  strStarts link "http://" || strStarts link "https://"

/-- The per-link body of `validator.worker` (src/unnamed/part_003,
lines 72-93): HTTP links go through `checkHTTP`, everything else through
`checkFile` with `StatusCode := 0`. -/
def checkLink (env : Env) (basePath link : String) : LinkStatus :=
  if isHTTPLink link then
    let r := checkHTTPCore (env.head link) (env.get link)
    { Link := link, Valid := r.1, Reason := r.2.1, StatusCode := r.2.2 }
  else
    let r := checkFile env basePath link
    { Link := link, Valid := r.1, Reason := r.2, StatusCode := 0 }

/-- One worker of `validator.worker` draining its share of the job channel in
order (src/unnamed/part_003, lines 69-95). -/
def workerRun (env : Env) (basePath : String) (queue : List String) : List LinkStatus :=
  queue.map (checkLink env basePath)

/-- `validator.ValidateLinksAsync` (src/unnamed/part_003, lines 30-67) as a
relation between its inputs and a possible collected result list.

Empty input short-circuits to the empty result (lines 31-33).  Otherwise the
function spawns `maxWorkers` workers (the Go `for i := 0; i < maxWorkers`
loop spawns `maxWorkers.toNat` goroutines), the submitter enqueues every link
and closes the channel, and the workers collectively drain the closed
channel: with at least one worker the multiset of consumed links is exactly
the input, with zero workers nothing is consumed and the result loop
terminates immediately (the buffered channel lets the submitter finish and
`wg.Wait()` returns at once).  The collected result list is an interleaving
of the workers' output streams, hence a permutation of their concatenation. -/
def ValidateLinksAsyncRel (env : Env) (links : List String) (basePath : String)
    (maxWorkers : Int) (res : List LinkStatus) : Prop :=
  if links = [] then res = []
  else
    ∃ queues : List (List String),
      queues.length = maxWorkers.toNat ∧
      List.Perm queues.flatten (if maxWorkers.toNat = 0 then [] else links) ∧
      List.Perm res (queues.map (workerRun env basePath)).flatten

/-- The status codes the Go HTTP client follows as redirects (301, 302, 303,
307, 308); a response carrying one of these (with its Location header,
abstracted away here) triggers the client's `CheckRedirect` hook. -/
def isRedirectCode (c : Nat) : Bool :=
  c == 301 || c == 302 || c == 303 || c == 307 || c == 308

/-- The redirect-following loop of the Go HTTP client under the
`CheckRedirect` policy of `checkHTTP` (src/unnamed/part_003, lines 98-107).
`chain k` is the response to the k-th request of the chain (1-based).  The
first argument is the index of the request just issued, which equals
`len(via)` when `CheckRedirect` fires for the next request; the second
argument is the remaining headroom `10 - k` before the `len(via) >= 10`
policy returns `http.ErrUseLastResponse`, which makes the client return the
last received response with a nil error. -/
def redirectLoopAux (chain : Nat → HTTPResponse) : Nat → Nat → HTTPResponse
  | k, 0 => chain k
  | k, m + 1 =>
    if isRedirectCode (chain k).statusCode then redirectLoopAux chain (k + 1) m
    else chain k

/-- A full request of the `checkHTTP` client: first request at index 1, with
headroom for at most nine followed redirects (requests 2..10). -/
def clientDo (chain : Nat → HTTPResponse) : HTTPResponse :=
  redirectLoopAux chain 1 9

/-- The skip test of `cli.processURL` (src/linkchecker/cli/cli.go,
lines 370-374): empty links, anchors, and javascript/mailto/tel links are
skipped before URL resolution. -/
def skipLink (link : String) : Bool :=
  (link == "") || strStarts link "#" || strStarts link "javascript:" ||
    strStarts link "mailto:" || strStarts link "tel:"

/-- The result of `url.Parse` + `baseURL.ResolveReference` + `String()` for
one raw link, modelled as an oracle: the resolved absolute URL's scheme and
its rendered form. -/
structure ResolvedURL where
  scheme : String
  rendered : String

/-- The per-link body of the link-collection loop of `cli.processURL`
(src/linkchecker/cli/cli.go, lines 368-403): skip-links and unparsable links
contribute nothing; resolved links contribute their rendered absolute URL
only when the resolved scheme is exactly http or https. -/
def processURLLink (resolve : String → Option ResolvedURL) (link : String) :
    Option String :=
  if skipLink link then none
  else
    match resolve link with
    | none => none
    | some u =>
      if u.scheme == "http" || u.scheme == "https" then some u.rendered
      else none

/-- The links `cli.processMarkdownFile` submits to the validator
(src/linkchecker/cli/cli.go, lines 304-313): the extracted links minus the
ones matching an ignore pattern (`IsURLIgnored`, modelled as an oracle
predicate); no other filtering happens on this path. -/
def markdownSubmittedLinks (ignored : String → Bool) (links : List String) :
    List String :=
  links.filter (fun l => !ignored l)

/-- `cli.Result` (src/linkchecker/cli/cli.go, lines 35-42). -/
structure Result where
  URL : String
  Status : String
  StatusCode : Nat
  Error : String
  Source : String
  Line : Nat
deriving DecidableEq

/-- The `LinkStatus` → `Result` conversion shared verbatim by
`cli.processMarkdownFile` (lines 316-331) and `cli.processURL`
(lines 421-436): only URL, Status, StatusCode, Error and Source are ever
assigned; `Line` keeps Go's zero value. -/
def resultFromStatus (source : String) (s : LinkStatus) : Result :=
  if s.Valid then
    { URL := s.Link, Status := "valid", StatusCode := s.StatusCode,
      Error := "", Source := source, Line := 0 }
  else
    { URL := s.Link, Status := "invalid", StatusCode := s.StatusCode,
      Error := s.Reason, Source := source, Line := 0 }

/-- The whole conversion loop over a batch of statuses. -/
def resultsFromStatuses (source : String) (statuses : List LinkStatus) :
    List Result :=
  statuses.map (resultFromStatus source)

/-- The only-dead filter of `cli.runRealLinkChecker`
(src/linkchecker/cli/cli.go, lines 216-224): when active it keeps exactly
the entries whose Status is "invalid". -/
def filterOnlyDead (onlyDead : Bool) (results : List Result) : List Result :=
  if onlyDead then results.filter (fun r => r.Status == "invalid") else results

/-- The summary counters of `cli.Output` (src/linkchecker/cli/cli.go,
lines 45-53), without the wall-clock duration string. -/
structure Summary where
  total : Nat
  valid : Nat
  invalid : Nat
deriving DecidableEq

/-- The summary computation of `cli.runRealLinkChecker`
(src/linkchecker/cli/cli.go, lines 231-244): every entry with Status
"valid" counts as valid, every other entry counts as invalid, and total is
the length of the (possibly filtered) result list. -/
def summarize (results : List Result) : Summary :=
  { total := results.length,
    valid := results.countP (fun r => r.Status == "valid"),
    invalid := results.countP (fun r => !(r.Status == "valid")) }

/-- The merge/filter/summarize tail of `cli.runRealLinkChecker`
(src/linkchecker/cli/cli.go, lines 193-245): the per-input batches are
concatenated in order, the only-dead filter is applied once to the merged
list, and the summary is computed over the filtered list. -/
def runAggregate (onlyDead : Bool) (batches : List (List Result)) :
    List Result × Summary :=
  let merged := batches.flatten
  let final := filterOnlyDead onlyDead merged
  (final, summarize final)

/-- An environment in which every HTTP attempt answers 200 OK and every stat
succeeds; used to instantiate theorems at concrete inputs. -/
def envOK : Env :=
  { head := fun _ => Except.ok { statusCode := 200, status := "200 OK" },
    get := fun _ => Except.ok { statusCode := 200, status := "200 OK" },
    stat := fun _ => Except.ok (),
    join := fun b r => b ++ "/" ++ r }

/-- An environment in which every HTTP attempt fails with a transport error
and every stat fails; used to instantiate theorems at concrete inputs. -/
def envMissing : Env :=
  { head := fun _ => Except.error "connection refused",
    get := fun _ => Except.error "connection refused",
    stat := fun _ => Except.error "stat: no such file or directory",
    join := fun b r => b ++ "/" ++ r }

/-- A response chain that redirects forever with 302. -/
def chain302 : Nat → HTTPResponse :=
  fun _ => { statusCode := 302, status := "302 Found" }

lemma flatten_map_workerRun (env : Env) (basePath : String)
    (queues : List (List String)) :
    (queues.map (workerRun env basePath)).flatten =
      queues.flatten.map (checkLink env basePath) := by
  have h : workerRun env basePath = List.map (checkLink env basePath) := rfl
  rw [h]
  simp [List.map_flatten]

lemma singleQueueRel (env : Env) (basePath : String) (links : List String)
    (hne : links ≠ []) :
    ValidateLinksAsyncRel env links basePath 1 (links.map (checkLink env basePath)) := by
  unfold ValidateLinksAsyncRel
  rw [if_neg hne]
  exact ⟨[links], rfl, by simp, by simp [workerRun]⟩

lemma zeroWorkersRel (env : Env) (basePath : String) (links : List String)
    (hne : links ≠ []) :
    ValidateLinksAsyncRel env links basePath 0 [] := by
  unfold ValidateLinksAsyncRel
  rw [if_neg hne]
  exact ⟨[], rfl, by simp, by simp⟩

/-- C1: for every non-empty input list of links and every worker count in
[1, len(links)], any result collection `ValidateLinksAsync` can return has
exactly one `LinkStatus` per input link: it is a permutation of the input
links each mapped through the single-link check, so in particular its length
equals the input length, with no drops and no duplicates, regardless of the
completion order. -/
theorem validateLinksAsync_one_status_per_link
    (env : Env) (links : List String) (basePath : String) (w : Int)
    (res : List LinkStatus) (hne : links ≠ []) (h1 : 1 ≤ w)
    (h2 : w ≤ (links.length : Int))
    (hrun : ValidateLinksAsyncRel env links basePath w res) :
    res.length = links.length ∧
      List.Perm res (links.map (checkLink env basePath)) := by
  unfold ValidateLinksAsyncRel at hrun
  rw [if_neg hne] at hrun
  obtain ⟨queues, hlen, hjoin, hres⟩ := hrun
  have hw : ¬ w.toNat = 0 := by omega
  rw [if_neg hw] at hjoin
  have hperm : List.Perm res (links.map (checkLink env basePath)) := by
    have h1 : List.Perm res (queues.flatten.map (checkLink env basePath)) := by
      rw [← flatten_map_workerRun]
      exact hres
    exact h1.trans (hjoin.map (checkLink env basePath))
  refine ⟨?_, hperm⟩
  rw [hperm.length_eq, List.length_map]

/-- C1 witness: a concrete single-worker run over two links produces exactly
two statuses. -/
theorem validateLinksAsync_one_status_per_link_witness :
    (["a.md", "b.md"].map (checkLink envOK ".")).length = 2 := by
  have h := validateLinksAsync_one_status_per_link envOK ["a.md", "b.md"] "." 1
    (["a.md", "b.md"].map (checkLink envOK ".")) (by decide) (by decide) (by decide)
    (singleQueueRel envOK "." ["a.md", "b.md"] (by decide))
  simpa using h.1

/-- C4: with `workerCount <= 0` the pool does not fail fast — every run of
`ValidateLinksAsync` completes normally and returns the empty result
collection even for a non-empty input, exactly the silent outcome the claim
forbids (no worker is spawned, `wg.Wait()` returns at once, and the result
channel closes empty). -/
theorem validateLinksAsync_zero_workers_empty
    (env : Env) (links : List String) (basePath : String) (w : Int)
    (res : List LinkStatus) (hw : w ≤ 0)
    (hrun : ValidateLinksAsyncRel env links basePath w res) :
    res = [] := by
  unfold ValidateLinksAsyncRel at hrun
  by_cases hne : links = []
  · rw [if_pos hne] at hrun
    exact hrun
  · rw [if_neg hne] at hrun
    obtain ⟨queues, hlen, hjoin, hres⟩ := hrun
    have h0 : w.toNat = 0 := by omega
    rw [if_pos h0] at hjoin
    have hq : queues.flatten = [] := hjoin.eq_nil
    have hflat : (queues.map (workerRun env basePath)).flatten = [] := by
      rw [flatten_map_workerRun, hq]
      rfl
    rw [hflat] at hres
    exact hres.eq_nil

/-- C4 witness: with one input link and zero workers, the pool's normal run
collects the empty result list. -/
theorem validateLinksAsync_zero_workers_empty_witness :
    ValidateLinksAsyncRel envOK ["README.md"] "." 0 [] ∧
      ([] : List LinkStatus) = [] :=
  ⟨zeroWorkersRel envOK "." ["README.md"] (by decide),
    validateLinksAsync_zero_workers_empty envOK ["README.md"] "." 0 []
      (by decide) (zeroWorkersRel envOK "." ["README.md"] (by decide))⟩

/-- C2: a server that answers the HEAD request with 405 Method Not Allowed
and would answer the fallback GET with 200 OK is reported invalid: the Go
client returns a 405 response with a nil error, so the `err != nil` fallback
branch of `checkHTTP` is never taken and the 405 is classified as-is. -/
theorem checkHTTP_head405_no_fallback :
    checkHTTPCore
        (Except.ok { statusCode := 405, status := "405 Method Not Allowed" })
        (Except.ok { statusCode := 200, status := "200 OK" }) =
      (false, "405 Method Not Allowed", 405) := by
  decide

/-- C5: the verdict table of `checkHTTP`: whichever attempt first obtains a
response, codes in [200,400) yield `(valid, reason, code) = (true, "", code)`
and codes outside that range yield `(false, status line, code)`; when both
the HEAD and the fallback GET fail with a transport error the verdict is
`(false, reason, 0)` with reason "Request timeout" exactly when the error
text contains "timeout" and the raw error text otherwise. -/
theorem checkHTTP_verdict_classification
    (headAttempt getAttempt : Except String HTTPResponse) :
    (∀ resp, headAttempt = Except.ok resp →
        checkHTTPCore headAttempt getAttempt = classifyResp resp) ∧
    (∀ e resp, headAttempt = Except.error e → getAttempt = Except.ok resp →
        checkHTTPCore headAttempt getAttempt = classifyResp resp) ∧
    (∀ e e₂, headAttempt = Except.error e → getAttempt = Except.error e₂ →
        checkHTTPCore headAttempt getAttempt =
          (false, if strContains e₂ "timeout" then "Request timeout" else e₂, 0)) ∧
    (∀ resp,
      (200 ≤ resp.statusCode ∧ resp.statusCode < 400 →
          classifyResp resp = (true, "", resp.statusCode)) ∧
      (resp.statusCode < 200 ∨ 400 ≤ resp.statusCode →
          classifyResp resp = (false, resp.status, resp.statusCode))) := by
  refine ⟨?_, ?_, ?_, ?_⟩
  · rintro resp rfl
    rfl
  · rintro e resp rfl rfl
    rfl
  · rintro e e₂ rfl rfl
    by_cases hc : strContains e₂ "timeout" = true
    · simp [checkHTTPCore, hc]
    · simp [checkHTTPCore, hc]
  · intro resp
    constructor
    · intro hin
      simp [classifyResp, hin]
    · intro hout
      have hcond : ¬ (200 ≤ resp.statusCode ∧ resp.statusCode < 400) := by omega
      simp [classifyResp, hcond]

/-- C5 witness: a 404 response obtained by the HEAD attempt is classified
invalid with the status line as reason. -/
theorem checkHTTP_verdict_classification_witness :
    checkHTTPCore
        (Except.ok { statusCode := 404, status := "404 Not Found" })
        (Except.error "x") =
      (false, "404 Not Found", 404) := by
  have h := (checkHTTP_verdict_classification
    (Except.ok { statusCode := 404, status := "404 Not Found" })
    (Except.error "x")).1 { statusCode := 404, status := "404 Not Found" } rfl
  rw [h]
  decide

/-- C6: on a chain of 11 redirects the client never errors: the
`CheckRedirect` policy returns `http.ErrUseLastResponse` once ten requests
are on the `via` list, so the response of the tenth request is returned with
a nil error and `checkHTTP` classifies it as-is. -/
theorem redirect_cap_uses_hop10
    (chain : Nat → HTTPResponse) (getAttempt : Except String HTTPResponse)
    (h : ∀ k, 1 ≤ k → k ≤ 11 → isRedirectCode (chain k).statusCode = true) :
    clientDo chain = chain 10 ∧
      checkHTTPCore (Except.ok (clientDo chain)) getAttempt =
        classifyResp (chain 10) := by
  have h10 : clientDo chain = chain 10 := by
    simp [clientDo, redirectLoopAux,
      h 1 (by omega) (by omega), h 2 (by omega) (by omega),
      h 3 (by omega) (by omega), h 4 (by omega) (by omega),
      h 5 (by omega) (by omega), h 6 (by omega) (by omega),
      h 7 (by omega) (by omega), h 8 (by omega) (by omega),
      h 9 (by omega) (by omega)]
  exact ⟨h10, by rw [h10]; rfl⟩

/-- C6 witness: a chain answering 302 Found to every request terminates with
the hop-10 response, a 302, classified valid. -/
theorem redirect_cap_uses_hop10_witness :
    clientDo chain302 = { statusCode := 302, status := "302 Found" } :=
  (redirect_cap_uses_hop10 chain302 (Except.error "x")
    (fun _ _ _ => rfl)).1

/-- C7: a non-HTTP link is checked as a file: the stat target is the link
itself when absolute and `filepath.Join basePath link` otherwise, the status
is valid exactly when the stat succeeds, the status code is 0 always, and a
failed stat surfaces the OS error text as the reason. -/
theorem checkFile_resolution_and_stat
    (env : Env) (basePath link : String) (hlink : isHTTPLink link = false) :
    (checkLink env basePath link).StatusCode = 0 ∧
    ((checkLink env basePath link).Valid = true ↔
      env.stat (if isAbsPath link then link else env.join basePath link) =
        Except.ok ()) ∧
    (∀ e,
      env.stat (if isAbsPath link then link else env.join basePath link) =
          Except.error e →
        (checkLink env basePath link).Valid = false ∧
          (checkLink env basePath link).Reason = e) := by
  cases hstat : env.stat (if isAbsPath link then link else env.join basePath link) with
  | ok u =>
    cases u
    refine ⟨?_, ?_, ?_⟩ <;> simp [checkLink, hlink, checkFile, hstat]
  | error e =>
    refine ⟨?_, ?_, ?_⟩ <;> simp [checkLink, hlink, checkFile, hstat]

/-- C7 witness: checking the relative link "test.md" against base "." in an
environment where the stat succeeds yields a valid status with code 0. -/
theorem checkFile_resolution_and_stat_witness :
    (checkLink envOK "." "test.md").StatusCode = 0 ∧
      (checkLink envOK "." "test.md").Valid = true :=
  ⟨(checkFile_resolution_and_stat envOK "." "test.md" (by decide)).1,
    ((checkFile_resolution_and_stat envOK "." "test.md" (by decide)).2.1).mpr rfl⟩

lemma checkHTTPCore_valid_reason (a g : Except String HTTPResponse)
    (h : (checkHTTPCore a g).1 = true) : (checkHTTPCore a g).2.1 = "" := by
  cases a with
  | ok resp =>
    by_cases hin : 200 ≤ resp.statusCode ∧ resp.statusCode < 400 <;>
      simp_all [checkHTTPCore, classifyResp, hin]
  | error e =>
    cases g with
    | ok resp =>
      by_cases hin : 200 ≤ resp.statusCode ∧ resp.statusCode < 400 <;>
        simp_all [checkHTTPCore, classifyResp, hin]
    | error e₂ =>
      by_cases hc : strContains e₂ "timeout" = true <;>
        simp_all [checkHTTPCore]

lemma checkHTTPCore_err_code_zero (e₁ e₂ : String) :
    (checkHTTPCore (Except.error e₁) (Except.error e₂)).2.2 = 0 := by
  by_cases hc : strContains e₂ "timeout" = true <;> simp [checkHTTPCore, hc]

/-- C9: every status a worker emits satisfies the invariant: a valid status
has an empty reason; the status code is 0 for every non-HTTP (file) check;
and it is 0 for an HTTP check whose HEAD and fallback GET both fail with a
transport error. -/
theorem linkStatus_invariant (env : Env) (basePath link : String) :
    ((checkLink env basePath link).Valid = true →
      (checkLink env basePath link).Reason = "") ∧
    (isHTTPLink link = false → (checkLink env basePath link).StatusCode = 0) ∧
    (∀ e₁ e₂, env.head link = Except.error e₁ → env.get link = Except.error e₂ →
      (checkLink env basePath link).StatusCode = 0) := by
  cases hl : isHTTPLink link with
  | false =>
    refine ⟨?_, fun _ => ?_, fun e₁ e₂ h₁ h₂ => ?_⟩ <;>
      cases hstat : env.stat (if isAbsPath link then link else env.join basePath link) <;>
        simp [checkLink, hl, checkFile, hstat]
  | true =>
    refine ⟨?_, ?_, ?_⟩
    · intro hv
      have hv2 : (checkHTTPCore (env.head link) (env.get link)).1 = true := by
        simpa [checkLink, hl] using hv
      have := checkHTTPCore_valid_reason (env.head link) (env.get link) hv2
      simpa [checkLink, hl] using this
    · intro hfalse
      exact absurd hfalse (by decide)
    · intro e₁ e₂ h₁ h₂
      have hz := checkHTTPCore_err_code_zero e₁ e₂
      simp [checkLink, hl, h₁, h₂, hz]

/-- C9 witness: an HTTP link whose HEAD and GET both fail gives status code
0. -/
theorem linkStatus_invariant_witness :
    (checkLink envMissing "" "http://x.com").StatusCode = 0 :=
  (linkStatus_invariant envMissing "" "http://x.com").2.2
    "connection refused" "connection refused" rfl rfl

/-- C10: every `Result` the pipeline builds from a validator status — the
conversion shared by the markdown-file path and the web-page path — has
`Line = 0`: the optional line number is never populated. -/
theorem results_line_always_zero
    (source : String) (statuses : List LinkStatus) (r : Result)
    (hr : r ∈ resultsFromStatuses source statuses) : r.Line = 0 := by
  obtain ⟨s, _, rfl⟩ := List.mem_map.mp hr
  unfold resultFromStatus
  split <;> rfl

/-- C10 witness: a concrete converted result has `Line = 0`. -/
theorem results_line_always_zero_witness :
    (resultFromStatus "README.md"
      { Link := "https://x.com", Valid := true, Reason := "", StatusCode := 200 }).Line = 0 :=
  results_line_always_zero "README.md"
    [{ Link := "https://x.com", Valid := true, Reason := "", StatusCode := 200 }]
    _ (by simp [resultsFromStatuses])

/-- C8: with only-dead mode active the filter is applied once to the merged
batches and keeps exactly the entries with Status "invalid"; the summary is
computed over the filtered list, so total is its length, valid is 0,
invalid equals total, and every entry that was valid is gone. -/
theorem onlyDead_filter_and_summary (batches : List (List Result)) :
    (runAggregate true batches).1 =
        batches.flatten.filter (fun r => r.Status == "invalid") ∧
    (runAggregate true batches).2.total = (runAggregate true batches).1.length ∧
    (runAggregate true batches).2.valid = 0 ∧
    (runAggregate true batches).2.invalid = (runAggregate true batches).2.total ∧
    (∀ r, r ∈ batches.flatten → r.Status = "valid" →
      r ∉ (runAggregate true batches).1) := by
  refine ⟨rfl, rfl, ?_, ?_, ?_⟩
  · apply List.countP_eq_zero.mpr
    intro r hr
    have hinv : (r.Status == "invalid") = true := (List.mem_filter.mp hr).2
    have : r.Status = "invalid" := eq_of_beq hinv
    simp [runAggregate, filterOnlyDead, this]
  · apply List.countP_eq_length.mpr
    intro r hr
    have hinv : (r.Status == "invalid") = true := (List.mem_filter.mp hr).2
    have : r.Status = "invalid" := eq_of_beq hinv
    simp [this]
  · intro r hmem hval hr
    have hinv : (r.Status == "invalid") = true := (List.mem_filter.mp hr).2
    have : r.Status = "invalid" := eq_of_beq hinv
    rw [hval] at this
    exact absurd this (by decide)

/-- A merged batch with 2 valid and 3 invalid entries, for instantiating the
aggregation theorem. -/
def exampleResultsC8 : List Result :=
  [{ URL := "a", Status := "valid", StatusCode := 200, Error := "",
     Source := "s", Line := 0 },
   { URL := "b", Status := "valid", StatusCode := 200, Error := "",
     Source := "s", Line := 0 },
   { URL := "c", Status := "invalid", StatusCode := 404, Error := "404 Not Found",
     Source := "s", Line := 0 },
   { URL := "d", Status := "invalid", StatusCode := 500, Error := "500",
     Source := "s", Line := 0 },
   { URL := "e", Status := "invalid", StatusCode := 0, Error := "Request timeout",
     Source := "s", Line := 0 }]

/-- C8 witness: the 2-valid + 3-invalid batch filters down to a 3-element
list summarized as total 3, valid 0, invalid 3. -/
theorem onlyDead_filter_and_summary_witness :
    (runAggregate true [exampleResultsC8]).2.valid = 0 ∧
      (runAggregate true [exampleResultsC8]).2 =
        { total := 3, valid := 0, invalid := 3 } :=
  ⟨(onlyDead_filter_and_summary [exampleResultsC8]).2.2.1, by decide⟩

lemma checkLink_nonhttp_code_zero (env : Env) (basePath link : String)
    (hl : isHTTPLink link = false) :
    (checkLink env basePath link).StatusCode = 0 := by
  cases hstat : env.stat (if isAbsPath link then link else env.join basePath link) <;>
    simp [checkLink, hl, checkFile, hstat]

lemma not_http_of_first_char (c : Char) (l : List Char) (hc : c ≠ 'h') :
    isHTTPLink (String.mk (c :: l)) = false := by
  have hb : ('h' == c) = false := beq_eq_false_iff_ne.mpr (Ne.symm hc)
  have hd1 : "http://".data = ['h', 't', 't', 'p', ':', '/', '/'] := rfl
  have hd2 : "https://".data = ['h', 't', 't', 'p', 's', ':', '/', '/'] := rfl
  simp [isHTTPLink, strStarts, hd1, hd2, List.isPrefixOf, hb]

lemma skipLink_not_http (link : String) (h : skipLink link = true) :
    isHTTPLink link = false := by
  obtain ⟨l⟩ := link
  cases l with
  | nil => rfl
  | cons c cs =>
    have hd1 : "#".data = ['#'] := rfl
    have hd2 : "javascript:".data =
      ['j', 'a', 'v', 'a', 's', 'c', 'r', 'i', 'p', 't', ':'] := rfl
    have hd3 : "mailto:".data = ['m', 'a', 'i', 'l', 't', 'o', ':'] := rfl
    have hd4 : "tel:".data = ['t', 'e', 'l', ':'] := rfl
    apply not_http_of_first_char
    simp only [skipLink, strStarts, hd1, hd2, hd3, hd4, List.isPrefixOf,
      Bool.or_eq_true, Bool.and_eq_true, beq_iff_eq] at h
    rcases h with ((((h | h) | h) | h) | h)
    · exact absurd (congrArg String.data h) (by simp)
    · rw [← h.1]
      decide
    · rw [← h.1]
      decide
    · rw [← h.1]
      decide
    · rw [← h.1]
      decide

/-- C3 counterexample: the markdown-file checking path applies no skip
filter: with no ignore patterns the raw link "#section" is submitted to the
validator unchanged, and a one-worker run of the pool produces a
`LinkStatus` for it — refuting that a "#"-anchored link "is never submitted
for checking and produces no LinkStatus" in both paths. -/
theorem md_path_checks_anchor_link :
    markdownSubmittedLinks (fun _ => false) ["#section"] = ["#section"] ∧
      ValidateLinksAsyncRel envMissing ["#section"] "." 1
        [checkLink envMissing "." "#section"] ∧
      (checkLink envMissing "." "#section").Link = "#section" :=
  ⟨rfl, singleQueueRel envMissing "." ["#section"] (by decide), rfl⟩

/-- C3 (amended): a raw link that is empty or begins with "#",
"javascript:", "mailto:" or "tel:" (case-sensitive prefix match) is skipped
in the web-page checking path — it never reaches URL resolution or the
validator.  The markdown-file checking path applies no such skip: the link
passes the ignore filter untouched, is not an HTTP(S) link, and is therefore
submitted to the validator as a file check (status code 0). -/
theorem skip_links_web_path_only
    (resolve : String → Option ResolvedURL) (ignored : String → Bool)
    (env : Env) (basePath link : String) (h : skipLink link = true) :
    processURLLink resolve link = none ∧
    (ignored link = false → markdownSubmittedLinks ignored [link] = [link]) ∧
    isHTTPLink link = false ∧
    (checkLink env basePath link).StatusCode = 0 := by
  have hhttp : isHTTPLink link = false := skipLink_not_http link h
  refine ⟨?_, ?_, hhttp, ?_⟩
  · simp [processURLLink, h]
  · intro hig
    simp [markdownSubmittedLinks, hig]
  · exact checkLink_nonhttp_code_zero env basePath link hhttp

/-- C3 witness: the mailto link is skipped on the web path and, on the
markdown path, checked as a file with status code 0. -/
theorem skip_links_web_path_only_witness :
    processURLLink (fun _ => none) "mailto:a@b.com" = none ∧
      (checkLink envMissing "." "mailto:a@b.com").StatusCode = 0 :=
  ⟨(skip_links_web_path_only (fun _ => none) (fun _ => false) envMissing "."
      "mailto:a@b.com" (by decide)).1,
    (skip_links_web_path_only (fun _ => none) (fun _ => false) envMissing "."
      "mailto:a@b.com" (by decide)).2.2.2⟩

end LinkChecker
